import Mathlib

/-!
Verification development for the Obsidian server core
(`src/server/src/server.c`, `src/server/src/memory/ring_buffer.c`,
`src/server/src/minecraft/protocol.c`, `src/server/include/obsidian/minecraft/protocol.h`).

Modelling conventions, chosen to mirror the C source:

* Byte buffers are `List Nat`, one entry per byte.  Reading memory at an
  index uses `byteAt`, which yields 0 out of range (an out-of-range read is
  undefined behaviour in the C source; where a claim depends on such a read
  only the returned cursor matters, never the bytes read).
* `size_t` arithmetic that can wrap is taken modulo `2 ^ 64`; `int` results
  of the decoders stay small on every path exercised here, so they are
  modelled as unwrapped `Int`.
* `mc_byte`, `mc_word` and `mc_dword` are signed two's-complement integers;
  conversions from the unsigned wire value use `toSigned8/16/32`, matching
  the implementation-defined (two's-complement) conversions the source
  relies on.
* `mc_float`/`mc_double` are transported by `memcpy` of their bit patterns
  (`encode_float`/`encode_double` in protocol.c), never interpreted
  numerically, so a float field is modelled as its 32-bit bit pattern and
  a double field as its 64-bit bit pattern (a `Nat`).
* Decoders in C fill an out-parameter struct; each Lean decoder takes the
  initial struct value and returns the updated one together with the `int`
  result, writing fields at the same points the source does.
* Encoders in C receive a target buffer and a size and return the number of
  bytes written; the Lean encoder takes the size and returns the written
  bytes as a list (the prior buffer contents are never read by the source).
-/

/-- Reads a byte of a buffer (`buf[i]`); 0 for an out-of-range read. -/
def byteAt : List Nat → Nat → Nat
  | [], _ => 0
  | b :: _, 0 => b
  | _ :: l, n + 1 => byteAt l n

/-- Two's-complement reading of an unsigned byte as `mc_byte` (`int8_t`). -/
def toSigned8 (n : Nat) : Int :=
  if n < 128 then (n : Int) else (n : Int) - 256

/-- Two's-complement reading of an unsigned 16-bit value as `mc_word` (`int16_t`). -/
def toSigned16 (n : Nat) : Int :=
  if n < 32768 then (n : Int) else (n : Int) - 65536

/-- Two's-complement reading of an unsigned 32-bit value as `mc_dword` (`int32_t`). -/
def toSigned32 (n : Nat) : Int :=
  if n < 2147483648 then (n : Int) else (n : Int) - 4294967296

/-- `(size_t) x` for a signed value `x`: reduction modulo `2 ^ 64`. -/
def toSizeT (x : Int) : Nat := (x % (18446744073709551616 : Int)).toNat

/-- Big-endian bytes of a 16-bit unsigned value (`htobe16`). -/
def wordBytesN (n : Nat) : List Nat := [n / 256 % 256, n % 256]

/-- `encode_word`: the `mc_word` is converted to `uint16_t` and stored big-endian. -/
def wordBytes (x : Int) : List Nat := wordBytesN ((x % (65536 : Int)).toNat)

/-- Big-endian bytes of a 32-bit unsigned value (`htobe32`). -/
def dwordBytesN (n : Nat) : List Nat :=
  [n / 16777216 % 256, n / 65536 % 256, n / 256 % 256, n % 256]

/-- `encode_dword`: the `mc_dword` is converted to `uint32_t` and stored big-endian. -/
def dwordBytes (x : Int) : List Nat := dwordBytesN ((x % (4294967296 : Int)).toNat)

/-- Big-endian bytes of a 64-bit unsigned value (`htobe64`); used by
`encode_qword` and hence `encode_double` (bit pattern transport). -/
def qwordBytes (n : Nat) : List Nat :=
  [n / 72057594037927936 % 256, n / 281474976710656 % 256,
   n / 1099511627776 % 256, n / 4294967296 % 256,
   n / 16777216 % 256, n / 65536 % 256, n / 256 % 256, n % 256]

/-- `decode_word` before the signed conversion: big-endian 16-bit read. -/
def decodeWordN (buf : List Nat) (c : Nat) : Nat :=
  byteAt buf c * 256 + byteAt buf (c + 1)

/-- `decode_dword` before the signed conversion: big-endian 32-bit read. -/
def decodeDwordN (buf : List Nat) (c : Nat) : Nat :=
  byteAt buf c * 16777216 + byteAt buf (c + 1) * 65536 +
    byteAt buf (c + 2) * 256 + byteAt buf (c + 3)

/-- `decode_qword` as an unsigned 64-bit pattern: big-endian 64-bit read;
`decode_double` forwards this bit pattern unchanged. -/
def decodeQword (buf : List Nat) (c : Nat) : Nat :=
  byteAt buf c * 72057594037927936 + byteAt buf (c + 1) * 281474976710656 +
    byteAt buf (c + 2) * 1099511627776 + byteAt buf (c + 3) * 4294967296 +
    byteAt buf (c + 4) * 16777216 + byteAt buf (c + 5) * 65536 +
    byteAt buf (c + 6) * 256 + byteAt buf (c + 7)

/-- `(uint8_t)` of a signed `mc_byte`/`mc_bool` value, as written by `encode_byte`. -/
def byteOfInt (x : Int) : Nat := (x % (256 : Int)).toNat

/-! ## Packet structures (`obsidian/minecraft/protocol.h`) -/

/-- `struct mc_proto_heartbeat` (empty body). -/
structure McHeartbeat where
  deriving DecidableEq, Repr, Inhabited

/-- `struct mc_proto_authentication_request`. -/
structure McAuthenticationRequest where
  protocol_version : Int := 0
  username_length : Int := 0
  username : List Nat := []
  password_length : Int := 0
  password : List Nat := []
  deriving DecidableEq, Repr, Inhabited

/-- `struct mc_proto_authentication_response`. -/
structure McAuthenticationResponse where
  entity_id : Int := 0
  unknown0_length : Int := 0
  unknown0 : List Nat := []
  unknown1_length : Int := 0
  unknown1 : List Nat := []
  deriving DecidableEq, Repr, Inhabited

/-- `struct mc_proto_handshake_request`. -/
structure McHandshakeRequest where
  name_length : Int := 0
  name : List Nat := []
  deriving DecidableEq, Repr, Inhabited

/-- `struct mc_proto_handshake_response`. -/
structure McHandshakeResponse where
  unknown_length : Int := 0
  unknown : List Nat := []
  deriving DecidableEq, Repr, Inhabited

/-- `struct mc_proto_player_grounded`. -/
structure McPlayerGrounded where
  grounded : Int := 0
  deriving DecidableEq, Repr, Inhabited

/-- `struct mc_proto_player_position`; doubles are carried as 64-bit patterns. -/
structure McPlayerPosition where
  x : Nat := 0
  y : Nat := 0
  head_y : Nat := 0
  z : Nat := 0
  grounded : Int := 0
  deriving DecidableEq, Repr, Inhabited

/-- `struct mc_proto_player_rotation`; floats are carried as 32-bit patterns. -/
structure McPlayerRotation where
  yaw : Nat := 0
  pitch : Nat := 0
  grounded : Int := 0
  deriving DecidableEq, Repr, Inhabited

/-- `struct mc_proto_player_transform`; doubles as 64-bit patterns, floats as
32-bit patterns, `grounded` as the signed `mc_bool`. -/
structure McPlayerTransform where
  x : Nat := 0
  y : Nat := 0
  head_y : Nat := 0
  z : Nat := 0
  yaw : Nat := 0
  pitch : Nat := 0
  grounded : Int := 0
  deriving DecidableEq, Repr, Inhabited

/-- `struct mc_proto_disconnect`. -/
structure McDisconnect where
  message_length : Int := 0
  message : List Nat := []
  deriving DecidableEq, Repr, Inhabited

/-- `struct mc_proto_client_packet`: the C tagged union is modelled with one
field per member (only the member matching `type` is ever read). -/
structure McClientPacket where
  type : Int := 0
  heartbeat : McHeartbeat := {}
  authentication : McAuthenticationRequest := {}
  handshake : McHandshakeRequest := {}
  grounded : McPlayerGrounded := {}
  position : McPlayerPosition := {}
  rotation : McPlayerRotation := {}
  transform : McPlayerTransform := {}
  disconnect : McDisconnect := {}
  deriving DecidableEq, Repr, Inhabited

/-! ## Codec (`protocol.c`)

`ASSERT_BUFFER_SIZE(have, want)` returns `-(want - have)` when `have < want`;
the subtraction happens in `size_t` and is then negated into the `int`
return slot, which equals the mathematical `-(want - have)` for every
difference below `2 ^ 31` (all inputs used in the theorems below). -/

/-- `mc_proto_encode_heartbeat`. -/
def mc_proto_encode_heartbeat (buffer_size : Nat) (_heartbeat : McHeartbeat) :
    Int × List Nat :=
  if buffer_size < 1 then (-((1 : Int) - buffer_size), [])
  else (1, [0])

/-- `mc_proto_decode_heartbeat`. -/
def mc_proto_decode_heartbeat (buffer : List Nat) (buffer_size : Nat)
    (heartbeat : McHeartbeat) : Int × McHeartbeat :=
  if buffer_size < 1 then (-((1 : Int) - buffer_size), heartbeat)
  else
    let type := toSigned8 (byteAt buffer 0)
    if type ≠ 0 then (0, heartbeat)
    else (1, heartbeat)

/-- `mc_proto_decode_authentication_request`.  Cursor positions follow the
source: tag at 0, `protocol_version` at 1, `username_length` at 5, username
at 7, `password_length` and password after the username.  The second
`ASSERT_BUFFER_SIZE` uses `cursor + username_length + sizeof(mc_word)`
computed in `size_t`, and the string copies advance the cursor by
`(size_t) length`, both taken modulo `2 ^ 64` here.  Note the source checks
the buffer before the username and the password length word, but never
before the password bytes themselves. -/
def mc_proto_decode_authentication_request (buffer : List Nat)
    (buffer_size : Nat) (request : McAuthenticationRequest) :
    Int × McAuthenticationRequest :=
  if buffer_size < 7 then (-((7 : Int) - buffer_size), request)
  else
    let type := toSigned8 (byteAt buffer 0)
    if type ≠ 1 then (0, request)
    else
      let request := { request with protocol_version := toSigned32 (decodeDwordN buffer 1) }
      let ulen := toSigned16 (decodeWordN buffer 5)
      let request := { request with username_length := ulen }
      if 16 < ulen then (0, request)
      else
        let want := toSizeT ((7 : Int) + ulen + 2)
        if buffer_size < want then (-((want : Int) - buffer_size), request)
        else
          let ulenSz := toSizeT ulen
          let request := { request with username := (buffer.drop 7).take ulenSz }
          let c1 := (7 + ulenSz) % 18446744073709551616
          let plen := toSigned16 (decodeWordN buffer c1)
          let request := { request with password_length := plen }
          if 32 < plen then (0, request)
          else
            let plenSz := toSizeT plen
            let c2 := (c1 + 2) % 18446744073709551616
            let request := { request with password := (buffer.drop c2).take plenSz }
            let c3 := (c2 + plenSz) % 18446744073709551616
            ((c3 : Int), request)

/-- `mc_proto_encode_authentication_response`.  `needed` sums the fixed
header with both string lengths in `size_t`. -/
def mc_proto_encode_authentication_response (buffer_size : Nat)
    (response : McAuthenticationResponse) : Int × List Nat :=
  let needed := toSizeT ((1 : Int) + 4 + 2 + response.unknown0_length + 2 + response.unknown1_length)
  if buffer_size < needed then (-((needed : Int) - buffer_size), [])
  else
    let len0 := toSizeT response.unknown0_length
    let len1 := toSizeT response.unknown1_length
    let bytes := 1 :: dwordBytes response.entity_id ++
      wordBytes response.unknown0_length ++ response.unknown0.take len0 ++
      wordBytes response.unknown1_length ++ response.unknown1.take len1
    ((((9 + len0 + len1) % 18446744073709551616 : Nat) : Int), bytes)

/-- `mc_proto_decode_handshake_request`.  The name-length word is read as a
signed `mc_word`; the second `ASSERT_BUFFER_SIZE` computes
`cursor + name_length` in `size_t`. -/
def mc_proto_decode_handshake_request (buffer : List Nat) (buffer_size : Nat)
    (request : McHandshakeRequest) : Int × McHandshakeRequest :=
  if buffer_size < 3 then (-((3 : Int) - buffer_size), request)
  else
    let type := toSigned8 (byteAt buffer 0)
    if type ≠ 2 then (0, request)
    else
      let nlen := toSigned16 (decodeWordN buffer 1)
      let request := { request with name_length := nlen }
      if 16 < nlen then (0, request)
      else
        let want := toSizeT ((3 : Int) + nlen)
        if buffer_size < want then (-((want : Int) - buffer_size), request)
        else
          let nlenSz := toSizeT nlen
          let request := { request with name := (buffer.drop 3).take nlenSz }
          let cursor := (3 + nlenSz) % 18446744073709551616
          ((cursor : Int), request)

/-- `mc_proto_encode_handshake_response`. -/
def mc_proto_encode_handshake_response (buffer_size : Nat)
    (response : McHandshakeResponse) : Int × List Nat :=
  let needed := toSizeT ((1 : Int) + 2 + response.unknown_length)
  if buffer_size < needed then (-((needed : Int) - buffer_size), [])
  else
    let len := toSizeT response.unknown_length
    let bytes := 2 :: wordBytes response.unknown_length ++ response.unknown.take len
    ((((3 + len) % 18446744073709551616 : Nat) : Int), bytes)

/-- `mc_proto_decode_player_grounded`. -/
def mc_proto_decode_player_grounded (buffer : List Nat) (buffer_size : Nat)
    (grounded : McPlayerGrounded) : Int × McPlayerGrounded :=
  if buffer_size < 2 then (-((2 : Int) - buffer_size), grounded)
  else
    let type := toSigned8 (byteAt buffer 0)
    if type ≠ 10 then (0, grounded)
    else (2, { grounded with grounded := toSigned8 (byteAt buffer 1) })

/-- `mc_proto_decode_player_position`. -/
def mc_proto_decode_player_position (buffer : List Nat) (buffer_size : Nat)
    (position : McPlayerPosition) : Int × McPlayerPosition :=
  if buffer_size < 34 then (-((34 : Int) - buffer_size), position)
  else
    let type := toSigned8 (byteAt buffer 0)
    if type ≠ 11 then (0, position)
    else
      (34, { position with
        x := decodeQword buffer 1,
        y := decodeQword buffer 9,
        head_y := decodeQword buffer 17,
        z := decodeQword buffer 25,
        grounded := toSigned8 (byteAt buffer 33) })

/-- `mc_proto_decode_player_rotation`. -/
def mc_proto_decode_player_rotation (buffer : List Nat) (buffer_size : Nat)
    (rotation : McPlayerRotation) : Int × McPlayerRotation :=
  if buffer_size < 10 then (-((10 : Int) - buffer_size), rotation)
  else
    let type := toSigned8 (byteAt buffer 0)
    if type ≠ 12 then (0, rotation)
    else
      (10, { rotation with
        yaw := decodeDwordN buffer 1,
        pitch := decodeDwordN buffer 5,
        grounded := toSigned8 (byteAt buffer 9) })

/-- `mc_proto_encode_player_transform`.  The source encodes the doubles in
the order `x`, `head_y`, `y`, `z` ("Order for y and head_y is inverted when
sending to client"). -/
def mc_proto_encode_player_transform (buffer_size : Nat)
    (transform : McPlayerTransform) : Int × List Nat :=
  if buffer_size < 42 then (-((42 : Int) - buffer_size), [])
  else
    (42, 13 :: qwordBytes transform.x ++ qwordBytes transform.head_y ++
      qwordBytes transform.y ++ qwordBytes transform.z ++
      dwordBytesN transform.yaw ++ dwordBytesN transform.pitch ++
      [byteOfInt transform.grounded])

/-- `mc_proto_decode_player_transform`.  The source decodes the doubles in
the order `x`, `y`, `head_y`, `z`. -/
def mc_proto_decode_player_transform (buffer : List Nat) (buffer_size : Nat)
    (transform : McPlayerTransform) : Int × McPlayerTransform :=
  if buffer_size < 42 then (-((42 : Int) - buffer_size), transform)
  else
    let type := toSigned8 (byteAt buffer 0)
    if type ≠ 13 then (0, transform)
    else
      (42, { transform with
        x := decodeQword buffer 1,
        y := decodeQword buffer 9,
        head_y := decodeQword buffer 17,
        z := decodeQword buffer 25,
        yaw := decodeDwordN buffer 33,
        pitch := decodeDwordN buffer 37,
        grounded := toSigned8 (byteAt buffer 41) })

/-- `mc_proto_encode_disconnect`.  The tag byte written is
`(uint8_t) MC_PACKET_DISCONNECT = 0xFF`. -/
def mc_proto_encode_disconnect (buffer_size : Nat) (disconnect : McDisconnect) :
    Int × List Nat :=
  let needed := toSizeT ((1 : Int) + 2 + disconnect.message_length)
  if buffer_size < needed then (-((needed : Int) - buffer_size), [])
  else
    let len := toSizeT disconnect.message_length
    let bytes := 255 :: wordBytes disconnect.message_length ++ disconnect.message.take len
    ((((3 + len) % 18446744073709551616 : Nat) : Int), bytes)

/-- `mc_proto_decode_disconnect`.  The tag comparison
`type != MC_PACKET_DISCONNECT` compares the sign-extended `mc_byte`
(at most 127) against the enum value 255. -/
def mc_proto_decode_disconnect (buffer : List Nat) (buffer_size : Nat)
    (disconnect : McDisconnect) : Int × McDisconnect :=
  if buffer_size < 3 then (-((3 : Int) - buffer_size), disconnect)
  else
    let type := toSigned8 (byteAt buffer 0)
    if type ≠ 255 then (0, disconnect)
    else
      let mlen := toSigned16 (decodeWordN buffer 1)
      let disconnect := { disconnect with message_length := mlen }
      let want := toSizeT ((3 : Int) + mlen)
      if buffer_size < want then (-((want : Int) - buffer_size), disconnect)
      else
        let mlenSz := toSizeT mlen
        let disconnect := { disconnect with message := (buffer.drop 3).take mlenSz }
        let cursor := (3 + mlenSz) % 18446744073709551616
        ((cursor : Int), disconnect)

/-- `mc_proto_decode_client_packet`: reads the tag byte as a signed
`mc_byte` and dispatches.  The `MC_PACKET_DISCONNECT` case compares against
255, which the sign-extended tag can never equal. -/
def mc_proto_decode_client_packet (buffer : List Nat) (buffer_size : Nat)
    (packet : McClientPacket) : Int × McClientPacket :=
  if buffer_size < 1 then (-((1 : Int) - buffer_size), packet)
  else
    let type := toSigned8 (byteAt buffer 0)
    let packet := { packet with type := type }
    if type = 0 then
      let r := mc_proto_decode_heartbeat buffer buffer_size packet.heartbeat
      (r.1, { packet with heartbeat := r.2 })
    else if type = 1 then
      let r := mc_proto_decode_authentication_request buffer buffer_size packet.authentication
      (r.1, { packet with authentication := r.2 })
    else if type = 2 then
      let r := mc_proto_decode_handshake_request buffer buffer_size packet.handshake
      (r.1, { packet with handshake := r.2 })
    else if type = 10 then
      let r := mc_proto_decode_player_grounded buffer buffer_size packet.grounded
      (r.1, { packet with grounded := r.2 })
    else if type = 11 then
      let r := mc_proto_decode_player_position buffer buffer_size packet.position
      (r.1, { packet with position := r.2 })
    else if type = 12 then
      let r := mc_proto_decode_player_rotation buffer buffer_size packet.rotation
      (r.1, { packet with rotation := r.2 })
    else if type = 13 then
      let r := mc_proto_decode_player_transform buffer buffer_size packet.transform
      (r.1, { packet with transform := r.2 })
    else if type = 255 then
      let r := mc_proto_decode_disconnect buffer buffer_size packet.disconnect
      (r.1, { packet with disconnect := r.2 })
    else (0, packet)

example :
    (mc_proto_decode_authentication_request
      [1, 0, 0, 0, 1, 0, 1, 97, 0, 2] 10 {}).1 = 12 := by decide

example :
    (mc_proto_decode_handshake_request [2, 255, 255] 3 {}).1 = 2 := by decide

example :
    (mc_proto_decode_handshake_request [2, 0, 5, 83, 116, 101, 118, 101] 8 {}).2.name
      = [83, 116, 101, 118, 101] := by decide

example :
    (mc_proto_decode_player_transform
      (mc_proto_encode_player_transform 42
        { x := 0, y := 0, head_y := 1, z := 0, yaw := 0, pitch := 0, grounded := 0 }).2
      42 {}).2.y = 1 := by decide

/-! ## Server model (`server.c`)

A session row (`struct obs_session`).  The embedded read buffer
(`struct obs_rw_buffer`) appears as `ringSize` (the size of the attached
magic ring, 0 while no ring is attached) together with the two cursors.
`obs_alloc_ring_buffer(4096, 1)` rounds its size argument up to a page
multiple; a 4096-byte page is assumed, giving `ring->size = 4096`. -/
structure ObsSession where
  socket : Int := 0
  status : Int := 0
  username_length : Nat := 0
  username : List Nat := []
  address : Nat := 0
  port : Nat := 0
  ringSize : Nat := 0
  read_cursor : Nat := 0
  write_cursor : Nat := 0
  total_in : Nat := 0
  total_out : Nat := 0
  deriving DecidableEq, Repr, Inhabited

/-- `obs_rw_buffer_size`: `write_cursor - read_cursor` in `size_t`. -/
def obs_rw_buffer_size (s : ObsSession) : Nat :=
  (((s.write_cursor : Int) - s.read_cursor) % (18446744073709551616 : Int)).toNat

/-- `obs_rw_buffer_capacity`: `ring->size - obs_rw_buffer_size(b)` in `size_t`. -/
def obs_rw_buffer_capacity (s : ObsSession) : Nat :=
  (((s.ringSize : Int) - obs_rw_buffer_size s) % (18446744073709551616 : Int)).toNat

/-- I/O operations the handlers enqueue (pointer arguments are dropped;
buffers that matter to the claims are carried as byte lists). -/
inductive ObsAction where
  | queueSend (socket : Int) (buffer : List Nat) (size : Nat)
  | queueRecv (socket : Int) (size : Nat)
  | queueRecvOffset (socket : Int) (size : Nat) (offset : Nat)
  | queueAccept
  | queueClose (fd : Int)
  | releaseFrame
  | releaseBuffer
  | freeBuffer
  | fatalExit
  | submit
  deriving DecidableEq, Repr

/-- Session status constants (`enum obs_session_status`). -/
def SESSION_DISCONNECTED : Int := 0

/-- `SESSION_HANDSHAKING`. -/
def SESSION_HANDSHAKING : Int := 1

/-- `SESSION_AUTHENTICATING`. -/
def SESSION_AUTHENTICATING : Int := 2

/-- `SESSION_CONNECTED`. -/
def SESSION_CONNECTED : Int := 3

/-- `obs_server_heartbeat`: probes the encoder with a null buffer for the
length, allocates, encodes, queues the send and submits. -/
def obs_server_heartbeat (session : ObsSession) (_heartbeat : McHeartbeat) :
    ObsSession × List ObsAction :=
  let length := (-(mc_proto_encode_heartbeat 0 {}).1).toNat
  let buffer := (mc_proto_encode_heartbeat length {}).2
  (session, [ObsAction.queueSend session.socket buffer length, ObsAction.submit])

/-- `obs_server_authenticate`: rejects when the status is not
`SESSION_AUTHENTICATING` or the protocol version is not 1; otherwise marks
the session `SESSION_CONNECTED` and queues the encoded response. -/
def obs_server_authenticate (session : ObsSession)
    (authentication : McAuthenticationRequest) : ObsSession × List ObsAction :=
  if session.status ≠ SESSION_AUTHENTICATING then
    (session, [ObsAction.queueClose session.socket, ObsAction.submit])
  else if authentication.protocol_version ≠ 1 then
    (session, [ObsAction.queueClose session.socket, ObsAction.submit])
  else
    let session := { session with status := SESSION_CONNECTED }
    let response : McAuthenticationResponse :=
      { entity_id := 0, unknown0_length := 0, unknown0 := [],
        unknown1_length := 0, unknown1 := [] }
    let length := (-(mc_proto_encode_authentication_response 0 response).1).toNat
    let buffer := (mc_proto_encode_authentication_response length response).2
    (session, [ObsAction.queueSend session.socket buffer length, ObsAction.submit])

/-- `obs_server_handshake`: rejects when the status is not
`SESSION_HANDSHAKING`; otherwise copies the username
(`memcpy` of `(size_t) name_length` bytes), marks the session
`SESSION_AUTHENTICATING` and queues the encoded `"-"` response. -/
def obs_server_handshake (session : ObsSession)
    (request : McHandshakeRequest) : ObsSession × List ObsAction :=
  if session.status ≠ SESSION_HANDSHAKING then
    (session, [ObsAction.queueClose session.socket, ObsAction.submit])
  else
    let session := { session with
      username_length := toSizeT request.name_length,
      username := request.name.take (toSizeT request.name_length),
      status := SESSION_AUTHENTICATING }
    let response : McHandshakeResponse := { unknown_length := 1, unknown := [45] }
    let length := (-(mc_proto_encode_handshake_response 0 response).1).toNat
    let buffer := (mc_proto_encode_handshake_response length response).2
    (session, [ObsAction.queueSend session.socket buffer length, ObsAction.submit])

/-- `obs_server_dispatch_packet`: tag dispatch; unhandled types are logged
and ignored. -/
def obs_server_dispatch_packet (session : ObsSession)
    (packet : McClientPacket) : ObsSession × List ObsAction :=
  if packet.type = 0 then obs_server_heartbeat session packet.heartbeat
  else if packet.type = 1 then obs_server_authenticate session packet.authentication
  else if packet.type = 2 then obs_server_handshake session packet.handshake
  else (session, [])

/-- `struct obs_receive_frame` plus the bytes currently held by its buffer. -/
structure ObsReceiveFrame where
  buffer : List Nat := []
  buffer_size : Nat := 0
  bytes_in : Nat := 0
  deriving DecidableEq, Repr, Inhabited

/-- `struct obs_send_frame` (buffer pointer abstracted away). -/
structure ObsSendFrame where
  buffer_size : Nat := 0
  bytes_out : Nat := 0
  deriving DecidableEq, Repr, Inhabited

/-- The decode loop of `obs_server_process_data`.  Fuel-based recursion:
every iteration that recurses has a positive decode result and therefore
advances `cursor` by at least one, so `bytes_in + 1` fuel (supplied by
`obs_server_process_data`) can never run out.  The source's incomplete
branch tests `result < 0 && cursor < bytes_in`; the second conjunct is the
loop condition and is therefore always true there. -/
def obs_server_process_data_go (fuel : Nat) (session : ObsSession)
    (frame : ObsReceiveFrame) (cursor : Nat) (acc : List ObsAction) :
    ObsSession × List ObsAction :=
  match fuel with
  | 0 => (session, acc)
  | fuel + 1 =>
    if cursor < frame.bytes_in then
      let r := mc_proto_decode_client_packet (frame.buffer.drop cursor)
        (frame.bytes_in - cursor) {}
      if 0 < r.1 then
        let session := { session with read_cursor := session.read_cursor + r.1.toNat }
        let d := obs_server_dispatch_packet session r.2
        obs_server_process_data_go fuel d.1 frame (cursor + r.1.toNat) (acc ++ d.2)
      else if r.1 < 0 then
        (session, acc ++
          [ObsAction.queueRecvOffset session.socket (obs_rw_buffer_capacity session)
             (frame.bytes_in - cursor),
           ObsAction.releaseFrame])
      else (session, acc ++ [ObsAction.fatalExit])
    else
      (session, acc ++
        [ObsAction.releaseFrame,
         ObsAction.queueRecv session.socket (obs_rw_buffer_capacity session)])

/-- `obs_server_process_data`. -/
def obs_server_process_data (session : ObsSession) (frame : ObsReceiveFrame) :
    ObsSession × List ObsAction :=
  obs_server_process_data_go (frame.bytes_in + 1) session frame 0 []

/-- `obs_server_handle_recv`: on error (other than `-EBADF = -9`) or EOF
queue a close; on success advance the frame's `bytes_in`, the session's
write cursor and `total_in` by the completion count and process the data.
Every path ends with `obs_server_submit_queue`. -/
def obs_server_handle_recv (session : ObsSession) (frame : ObsReceiveFrame)
    (res : Int) : ObsSession × List ObsAction :=
  let r :=
    if res < 0 then
      if res ≠ -9 then
        (session, [ObsAction.queueClose session.socket, ObsAction.releaseFrame])
      else (session, [ObsAction.releaseFrame])
    else if res = 0 then
      (session, [ObsAction.queueClose session.socket, ObsAction.releaseFrame])
    else
      let n := res.toNat
      let frame := { frame with bytes_in := frame.bytes_in + n }
      let session := { session with
        write_cursor := session.write_cursor + n,
        total_in := session.total_in + n }
      obs_server_process_data session frame
  (r.1, r.2 ++ [ObsAction.submit])

/-- `obs_server_handle_send`: on error (other than `-EBADF = -9`) queue a
close; on success advance `bytes_out` and `total_out`; release the buffer
and frame when fully sent, otherwise free the buffer and release the frame
without queueing a continuation ("TODO: Incomplete write, queue up another
one").  Returns the session, the frame as last updated, and the actions. -/
def obs_server_handle_send (session : ObsSession) (frame : ObsSendFrame)
    (res : Int) : ObsSession × ObsSendFrame × List ObsAction :=
  if res < 0 then
    if res ≠ -9 then
      (session, frame,
        [ObsAction.queueClose session.socket, ObsAction.releaseFrame, ObsAction.submit])
    else (session, frame, [ObsAction.releaseFrame, ObsAction.submit])
  else
    let n := res.toNat
    let frame := { frame with bytes_out := frame.bytes_out + n }
    let session := { session with total_out := session.total_out + n }
    if frame.bytes_out = frame.buffer_size then
      (session, frame,
        [ObsAction.releaseBuffer, ObsAction.releaseFrame, ObsAction.submit])
    else
      (session, frame,
        [ObsAction.freeBuffer, ObsAction.releaseFrame, ObsAction.submit])

/-- `obs_server_get_available_session`: index of the first row whose
`socket` is 0, if any. -/
def obs_server_get_available_session (sessions : List ObsSession) : Option Nat :=
  sessions.findIdx? (fun s => s.socket == 0)

/-- `obs_server_handle_accept`: on error only log; on success claim the
first free row (close the accepted fd when none is free), initialise it and
queue an initial recv.  Every path then queues a fresh accept, submits and
releases the frame. -/
def obs_server_handle_accept (sessions : List ObsSession) (res : Int)
    (address : Nat) (port : Nat) : List ObsSession × List ObsAction :=
  let r :=
    if res < 0 then (sessions, ([] : List ObsAction))
    else
      match obs_server_get_available_session sessions with
      | none => (sessions, [ObsAction.queueClose res])
      | some i =>
        let s := sessions.getD i {}
        let s := { s with socket := res, address := address, port := port,
                          status := SESSION_HANDSHAKING, ringSize := 4096 }
        (sessions.set i s, [ObsAction.queueRecv res (obs_rw_buffer_capacity s)])
  (r.1, r.2 ++ [ObsAction.queueAccept, ObsAction.submit, ObsAction.releaseFrame])

/-! ## Pool allocator (`memory/pool_allocator.c`)

The intrusive free list threaded through the arena is modelled as the list
of free cell offsets; `allocator->next` is its head. -/

/-- `struct obs_pool_allocator`: the free list, heads first. -/
structure PoolAllocator where
  next : List Nat := []
  deriving DecidableEq, Repr, Inhabited

/-- Result of `obs_pool_allocator_alloc`.  The source reads `element->next`
unconditionally; when the free list is empty (`allocator->next == NULL`)
that read dereferences a null pointer — modelled as `fault`.  The function
has no path that returns a null pointer. -/
inductive PoolAllocResult where
  | fault
  | ptr (cell : Nat)
  deriving DecidableEq, Repr

/-- `nearest_multiple(size, multiple)`. -/
def nearest_multiple (size multiple : Nat) : Nat :=
  (size + multiple - 1) / multiple * multiple

/-- `obs_pool_allocator_create`: the arena is widened to a page multiple
(4096-byte pages assumed) and the constructor loop threads the free list
through the cells at offsets `0, element_size, 2·element_size, …` below
`pool_size`, in address order. -/
def obs_pool_allocator_create (element_size size : Nat) : PoolAllocator :=
  let pool_size := nearest_multiple size 4096
  { next := (List.range ((pool_size + element_size - 1) / element_size)).map
      (fun i => i * element_size) }

/-- `obs_pool_allocator_alloc`: pops the head of the free list; with an
empty free list it faults (see `PoolAllocResult.fault`). -/
def obs_pool_allocator_alloc (allocator : PoolAllocator) :
    PoolAllocResult × PoolAllocator :=
  match allocator.next with
  | [] => (PoolAllocResult.fault, allocator)
  | e :: rest => (PoolAllocResult.ptr e, { next := rest })

/-- `obs_pool_allocator_free`: pushes the cell onto the head of the free
list. -/
def obs_pool_allocator_free (allocator : PoolAllocator) (ptr : Nat) :
    PoolAllocator :=
  { next := ptr :: allocator.next }

/-- Repeated allocation, discarding the cells (used to drain a pool). -/
def poolAllocN : Nat → PoolAllocator → PoolAllocator
  | 0, a => a
  | n + 1, a => poolAllocN n (obs_pool_allocator_alloc a).2

/-! ## Shared lemmas -/

/-- The `size_t` cast of a small non-negative value is its `Nat` value. -/
theorem toSizeT_of_small (x : Int) (h0 : 0 ≤ x)
    (h1 : x < 18446744073709551616) : toSizeT x = x.toNat := by
  unfold toSizeT
  rw [Int.emod_eq_of_lt h0 h1]

/-! ## Claim theorems -/

/-- C1 counterexample: decoding the encoding of the player transform with
`y = 0` and `head_y = 1` does not give the packet back — the decoder fills
`y` from the bytes the encoder wrote for `head_y`, so the claimed
`decode(encode(P)) == P` fails at this concrete packet. -/
theorem codec_roundtrip_claim_counterexample :
    ¬ (mc_proto_decode_player_transform
        (mc_proto_encode_player_transform 42
          { x := 0, y := 0, head_y := 1, z := 0, yaw := 0, pitch := 0,
            grounded := 0 }).2 42 {} =
      (42, { x := 0, y := 0, head_y := 1, z := 0, yaw := 0, pitch := 0,
             grounded := 0 })) := by decide

set_option maxHeartbeats 1000000 in
/-- C1 (amended): for the packet types with both an encoder and a decoder,
byte counts agree and: a heartbeat round-trips exactly; a player transform
round-trips with `y` and `head_y` exchanged (the encoder writes `x`,
`head_y`, `y`, `z` while the decoder reads `x`, `y`, `head_y`, `z`); a
disconnect does not round-trip — its decoder reads the tag byte 0xFF as the
signed `mc_byte` −1, compares it against the enum value 255 and returns 0
(structural error). -/
theorem codec_roundtrip_amended (h : McHeartbeat) (t : McPlayerTransform)
    (d : McDisconnect)
    (hx : t.x < 18446744073709551616) (hy : t.y < 18446744073709551616)
    (hh : t.head_y < 18446744073709551616) (hz : t.z < 18446744073709551616)
    (hyaw : t.yaw < 4294967296) (hp : t.pitch < 4294967296)
    (hg1 : -128 ≤ t.grounded) (hg2 : t.grounded < 128)
    (hd0 : 0 ≤ d.message_length) (hd1 : d.message_length < 32768) :
    ((mc_proto_encode_heartbeat 1 h).1 = 1 ∧
      mc_proto_decode_heartbeat (mc_proto_encode_heartbeat 1 h).2 1 h = (1, h))
  ∧ ((mc_proto_encode_player_transform 42 t).1 = 42 ∧
      mc_proto_decode_player_transform
          (mc_proto_encode_player_transform 42 t).2 42 {} =
        (42, { x := t.x, y := t.head_y, head_y := t.y, z := t.z,
               yaw := t.yaw, pitch := t.pitch, grounded := t.grounded }))
  ∧ ((mc_proto_encode_disconnect (3 + d.message_length.toNat) d).1 =
        3 + d.message_length.toNat ∧
      (mc_proto_decode_disconnect
          (mc_proto_encode_disconnect (3 + d.message_length.toNat) d).2
          (3 + d.message_length.toNat) d).1 = 0) := by
  have hs : toSizeT ((3 : Int) + d.message_length) =
      3 + d.message_length.toNat := by
    rw [toSizeT_of_small _ (by omega) (by omega)]
    omega
  have hs2 : toSizeT d.message_length = d.message_length.toNat :=
    toSizeT_of_small _ hd0 (by omega)
  have hm : (3 + d.message_length.toNat) % 18446744073709551616 =
      3 + d.message_length.toNat := Nat.mod_eq_of_lt (by omega)
  refine ⟨⟨rfl, rfl⟩, ⟨rfl, ?_⟩, ?_, ?_⟩
  · simp [mc_proto_decode_player_transform, mc_proto_encode_player_transform,
      decodeQword, decodeDwordN, qwordBytes, dwordBytesN, byteAt, byteOfInt,
      toSigned8]
    refine ⟨?_, ?_, ?_, ?_, ?_, ?_, ?_⟩ <;> omega
  · simp [mc_proto_encode_disconnect, hs, hs2, hm, Int.toNat_of_nonneg hd0]
  · simp [mc_proto_encode_disconnect, mc_proto_decode_disconnect, hs, hs2, hm,
      byteAt, toSigned8, Int.toNat_of_nonneg hd0]

/-- C1 witness: the amended round-trip at a concrete transform. -/
theorem codec_roundtrip_amended_witness :
    mc_proto_decode_player_transform
        (mc_proto_encode_player_transform 42
          { x := 1, y := 2, head_y := 3, z := 4, yaw := 5, pitch := 6,
            grounded := 1 }).2 42 {} =
      (42, { x := 1, y := 3, head_y := 2, z := 4, yaw := 5, pitch := 6,
             grounded := 1 }) :=
  (codec_roundtrip_amended {}
    { x := 1, y := 2, head_y := 3, z := 4, yaw := 5, pitch := 6, grounded := 1 }
    { message_length := 2, message := [65, 66] }
    (by decide) (by decide) (by decide) (by decide) (by decide) (by decide)
    (by decide) (by decide) (by decide) (by decide)).2.1.2

/-- C2: `mc_proto_decode_authentication_request` on the 10-byte buffer
`01 00 00 00 01 00 01 61 00 02` — a valid authentication packet truncated
right before its two password bytes — returns 12, a positive count larger
than the buffer, instead of the negative value the return convention
requires: the source never checks the buffer size before decoding the
password bytes. -/
theorem decode_authentication_truncated_password_positive :
    (mc_proto_decode_authentication_request
      [1, 0, 0, 0, 1, 0, 1, 97, 0, 2] 10 {}).1 = 12 := by decide

set_option maxRecDepth 10000 in
/-- C3: a receive completion of those same 10 bytes on a fresh session
(cursors 0, 4096-byte ring) drives the decode loop to advance the read
cursor by the decoder's out-of-range result 12 while the write cursor only
advanced by the 10 received bytes, violating `write_cursor ≥ read_cursor`. -/
theorem recv_cursor_invariant_violation :
    ((obs_server_handle_recv { socket := 5, status := 1, ringSize := 4096 }
        { buffer := [1, 0, 0, 0, 1, 0, 1, 97, 0, 2], buffer_size := 4096,
          bytes_in := 0 } 10).1.read_cursor = 12)
  ∧ ((obs_server_handle_recv { socket := 5, status := 1, ringSize := 4096 }
        { buffer := [1, 0, 0, 0, 1, 0, 1, 97, 0, 2], buffer_size := 4096,
          bytes_in := 0 } 10).1.write_cursor = 10) := by decide

set_option maxRecDepth 10000 in
/-- C4: a pool created by `obs_pool_allocator_create(64, 1)` holds 64 cells
(one 4096-byte page); after 64 allocations the free list is empty and the
next `obs_pool_allocator_alloc` faults — the source dereferences the null
free-list head (`element->next`) instead of returning null. -/
theorem pool_alloc_exhausted_faults :
    ((poolAllocN 64 (obs_pool_allocator_create 64 1)).next = [])
  ∧ ((obs_pool_allocator_alloc
        (poolAllocN 64 (obs_pool_allocator_create 64 1))).1 =
      PoolAllocResult.fault) := by decide

/-- C5: a HANDSHAKE request handled while `SESSION_HANDSHAKING` copies the
name into the username, moves the status to `SESSION_AUTHENTICATING` and
queues a send of exactly `02 00 01 2D`; in any other status it queues a
close and leaves the session unchanged. -/
theorem handshake_handling_spec (session : ObsSession)
    (request : McHandshakeRequest) (h0 : 0 ≤ request.name_length)
    (h16 : request.name_length ≤ 16) :
    (session.status = SESSION_HANDSHAKING →
      obs_server_handshake session request =
        ({ session with username_length := request.name_length.toNat,
                        username := request.name.take request.name_length.toNat,
                        status := SESSION_AUTHENTICATING },
         [ObsAction.queueSend session.socket [2, 0, 1, 45] 4, ObsAction.submit]))
  ∧ (session.status ≠ SESSION_HANDSHAKING →
      obs_server_handshake session request =
        (session, [ObsAction.queueClose session.socket, ObsAction.submit])) := by
  have hs : (request.name_length % (18446744073709551616 : Int)).toNat =
      request.name_length.toNat := by
    rw [Int.emod_eq_of_lt h0 (by omega)]
  constructor
  · intro h
    simp [obs_server_handshake, h, hs, mc_proto_encode_handshake_response,
      toSizeT, wordBytes, wordBytesN]
  · intro h
    simp [obs_server_handshake, h]

/-- C5 witness: the handshake handler at a concrete session and the
request carrying the name "Steve". -/
theorem handshake_handling_spec_witness :
    obs_server_handshake { socket := 3, status := 1 }
        { name_length := 5, name := [83, 116, 101, 118, 101] } =
      ({ socket := 3, status := 2, username_length := 5,
         username := [83, 116, 101, 118, 101] },
       [ObsAction.queueSend 3 [2, 0, 1, 45] 4, ObsAction.submit]) :=
  (handshake_handling_spec { socket := 3, status := 1 }
    { name_length := 5, name := [83, 116, 101, 118, 101] }
    (by decide) (by decide)).1 rfl

/-- C6: an AUTHENTICATION request handled while `SESSION_AUTHENTICATING`
with protocol version 1 moves the status to `SESSION_CONNECTED` and queues
a send of exactly `01 00 00 00 00 00 00 00 00`; with any other protocol
version, or in any other status, it queues a close, sends nothing and
leaves the session (hence its status) unchanged. -/
theorem authentication_handling_spec (session : ObsSession)
    (request : McAuthenticationRequest) :
    (session.status = SESSION_AUTHENTICATING → request.protocol_version = 1 →
      obs_server_authenticate session request =
        ({ session with status := SESSION_CONNECTED },
         [ObsAction.queueSend session.socket [1, 0, 0, 0, 0, 0, 0, 0, 0] 9,
          ObsAction.submit]))
  ∧ (session.status = SESSION_AUTHENTICATING → request.protocol_version ≠ 1 →
      obs_server_authenticate session request =
        (session, [ObsAction.queueClose session.socket, ObsAction.submit]))
  ∧ (session.status ≠ SESSION_AUTHENTICATING →
      obs_server_authenticate session request =
        (session, [ObsAction.queueClose session.socket, ObsAction.submit])) := by
  refine ⟨?_, ?_, ?_⟩
  · intro h hv
    simp [obs_server_authenticate, h, hv,
      mc_proto_encode_authentication_response, toSizeT, wordBytes, wordBytesN,
      dwordBytes, dwordBytesN]
  · intro h hv
    simp [obs_server_authenticate, h, hv]
  · intro h
    simp [obs_server_authenticate, h]

/-- C6 witness: the authentication handler at a concrete session in
`SESSION_AUTHENTICATING` with protocol version 1. -/
theorem authentication_handling_spec_witness :
    obs_server_authenticate { socket := 3, status := 2 }
        { protocol_version := 1, username_length := 5,
          username := [83, 116, 101, 118, 101] } =
      ({ socket := 3, status := 3 },
       [ObsAction.queueSend 3 [1, 0, 0, 0, 0, 0, 0, 0, 0] 9,
        ObsAction.submit]) :=
  (authentication_handling_spec { socket := 3, status := 2 }
    { protocol_version := 1, username_length := 5,
      username := [83, 116, 101, 118, 101] }).1 rfl rfl

/-- C7: every ACCEPT completion queues exactly one fresh accept; a
successful accept with every session row in use (socket ≠ 0) closes the
accepted descriptor and leaves the session table untouched; with a first
free (zeroed) row it initialises that row with the socket, address, port,
`SESSION_HANDSHAKING` and a fresh 4096-byte ring, and queues one recv over
the full ring. -/
theorem accept_handling_spec (sessions : List ObsSession) (res : Int)
    (address port : Nat) :
    ((obs_server_handle_accept sessions res address port).2.count
        ObsAction.queueAccept = 1)
  ∧ (0 ≤ res → (∀ s ∈ sessions, s.socket ≠ 0) →
      obs_server_handle_accept sessions res address port =
        (sessions, [ObsAction.queueClose res, ObsAction.queueAccept,
                    ObsAction.submit, ObsAction.releaseFrame]))
  ∧ (∀ i, 0 ≤ res → obs_server_get_available_session sessions = some i →
      sessions.getD i {} = {} →
      obs_server_handle_accept sessions res address port =
        (sessions.set i { socket := res, address := address, port := port,
                          status := SESSION_HANDSHAKING, ringSize := 4096 },
         [ObsAction.queueRecv res 4096, ObsAction.queueAccept,
          ObsAction.submit, ObsAction.releaseFrame])) := by
  refine ⟨?_, ?_, ?_⟩
  · unfold obs_server_handle_accept
    split
    · simp [List.count_cons]
    · cases hf : obs_server_get_available_session sessions <;>
        simp [hf, List.count_cons, List.count_append]
  · intro hres hall
    have hf : obs_server_get_available_session sessions = none := by
      unfold obs_server_get_available_session
      rw [List.findIdx?_eq_none_iff]
      intro s hm
      simpa using hall s hm
    simp [obs_server_handle_accept, hf, not_lt.mpr hres]
  · intro i hres hf hrow
    rw [List.getD_eq_getElem?_getD] at hrow
    simp [obs_server_handle_accept, hf, not_lt.mpr hres,
      List.getD_eq_getElem?_getD, hrow, obs_rw_buffer_capacity,
      obs_rw_buffer_size, toSizeT]

/-- C7 witness: a successful accept (fd 7) with a single free row claims
and initialises it. -/
theorem accept_handling_spec_witness :
    obs_server_handle_accept [({} : ObsSession)] 7 2130706433 50000 =
      ([{ socket := 7, address := 2130706433, port := 50000, status := 1,
          ringSize := 4096 }],
       [ObsAction.queueRecv 7 4096, ObsAction.queueAccept, ObsAction.submit,
        ObsAction.releaseFrame]) :=
  (accept_handling_spec [({} : ObsSession)] 7 2130706433 50000).2.2 0
    (by decide) rfl rfl

/-- C8: a successful SEND completion advances the frame's `bytes_out` and
the session's `total_out` by the completion count; when the buffer is fully
sent the buffer and frame are released; when it is not, the buffer is freed
and the frame released with no continuation send queued for the remaining
tail. -/
theorem send_completion_spec (session : ObsSession) (frame : ObsSendFrame)
    (res : Int) (h : 0 ≤ res) :
    ((obs_server_handle_send session frame res).2.1.bytes_out =
        frame.bytes_out + res.toNat)
  ∧ ((obs_server_handle_send session frame res).1.total_out =
        session.total_out + res.toNat)
  ∧ (frame.bytes_out + res.toNat = frame.buffer_size →
      (obs_server_handle_send session frame res).2.2 =
        [ObsAction.releaseBuffer, ObsAction.releaseFrame, ObsAction.submit])
  ∧ (frame.bytes_out + res.toNat ≠ frame.buffer_size →
      (obs_server_handle_send session frame res).2.2 =
        [ObsAction.freeBuffer, ObsAction.releaseFrame, ObsAction.submit]
      ∧ ∀ sck buf sz,
          ObsAction.queueSend sck buf sz ∉
            (obs_server_handle_send session frame res).2.2) := by
  have hn : ¬ res < 0 := by omega
  refine ⟨?_, ?_, ?_, ?_⟩
  · simp [obs_server_handle_send, hn]
    split <;> rfl
  · simp [obs_server_handle_send, hn]
    split <;> rfl
  · intro he
    simp [obs_server_handle_send, hn, he]
  · intro he
    simp [obs_server_handle_send, hn, he]

/-- C8 witness: a partial send (3 of 5 bytes) frees the buffer, releases
the frame and queues no continuation. -/
theorem send_completion_spec_witness :
    (obs_server_handle_send {} { buffer_size := 5, bytes_out := 0 } 3).2.2 =
      [ObsAction.freeBuffer, ObsAction.releaseFrame, ObsAction.submit] :=
  ((send_completion_spec {} { buffer_size := 5, bytes_out := 0 } 3
    (by decide)).2.2.2 (by decide)).1

/-- C9: the name-length sanitization of `mc_proto_decode_handshake_request`
is bypassed when the unsigned 16-bit length field holds 65535 (> 16): the
source reads it as the signed `mc_word` −1, which is not `> 16`, skips the
rejection, and returns 2 instead of 0 (in C the subsequent `memcpy` then
reads `(size_t)(-1)` bytes out of bounds). -/
theorem decode_handshake_oversized_length_not_rejected :
    (decodeWordN [2, 255, 255] 1 = 65535)
  ∧ ((mc_proto_decode_handshake_request [2, 255, 255] 3 {}).1 = 2) := by
  decide

/-- C10: freeing a cell and immediately allocating returns that same cell
and restores the allocator's free list — the pool free list is LIFO. -/
theorem pool_free_then_alloc_lifo (p : Nat) (a : PoolAllocator) :
    obs_pool_allocator_alloc (obs_pool_allocator_free a p) =
      (PoolAllocResult.ptr p, a) := rfl
